import Mathlib

/-!
Verification of the cutt pybind11 binding (`src/python/cutt.cpp`): the Plan
Lifecycle Manager (`class cuTT`), the Result Mapper (`cuttErrorString`), the
buffer/stream validation in the constructors and `execute`, and the one-time
process initialization gate (`std::once_flag cuttInitialized`).

The native transpose engine (cuttPlan / cuttPlanMeasure / cuttExecute /
cuttDestroy / cuttInitialize) is external to the binding: its calls are
recorded in a trace (`EngineCall`), and the results it would return are
supplied as parameters (`EngineBehavior`), so theorems can quantify over
every engine behaviour and count engine invocations.
-/

namespace CuttModel

/-- Result codes of the engine. `cuttResult` is a C enum; its enumerators are
sequential from 0 (modelled from the spec's closed `ResultCode` set: Success,
InvalidPlan, InvalidParameter, InvalidDevice, InternalError, UndefinedError;
the header that declares the enum is outside the binding source). A `Nat`
outside 0..5 models a value outside the closed set. -/
abbrev cuttResult := Nat

def CUTT_SUCCESS : cuttResult := 0

def CUTT_INVALID_PLAN : cuttResult := 1

def CUTT_INVALID_PARAMETER : cuttResult := 2

def CUTT_INVALID_DEVICE : cuttResult := 3

def CUTT_INTERNAL_ERROR : cuttResult := 4

def CUTT_UNDEFINED_ERROR : cuttResult := 5

/-- `cuttErrorString` (src/python/cutt.cpp lines 18-39): the switch over the
result code, with the fall-through default "Unknown error". -/
def cuttErrorString (result : cuttResult) : String :=
  if result = CUTT_SUCCESS then "Success"
  else if result = CUTT_INVALID_PLAN then "Invalid plan handle"
  else if result = CUTT_INVALID_PARAMETER then "Invalid input parameter"
  else if result = CUTT_INVALID_DEVICE then
    "Execution tried on device different than where plan was created"
  else if result = CUTT_INTERNAL_ERROR then "Internal error"
  else if result = CUTT_UNDEFINED_ERROR then "Undefined error"
  else "Unknown error"

/-- A pycuda gpuarray argument as the binding observes it: whether it passes
the `py::isinstance(_, pygpuarray)` capability check, its dtype tag (compared
with `.is`, rendered into error messages), its device pointer `ptr`, its
`itemsize`, and the text `py::str` renders for error messages. -/
structure PyBuffer where
  isGpuArray : Bool
  dtype : String
  ptr : Int
  itemsize : Nat
  str : String
deriving DecidableEq

/-- The stream argument: `None` (maps to the default stream 0), a
`pycuda.driver.Stream` carrying `handle_int`, or any other object (rendered
by `py::str` in the error message). -/
inductive PyStreamArg where
  | noneArg : PyStreamArg
  | stream (handle : Int) : PyStreamArg
  | other (str : String) : PyStreamArg
deriving DecidableEq

/-- One call into the native engine, with the arguments the binding passes. -/
inductive EngineCall where
  | cuttInitialize : EngineCall
  | cuttPlan (rank : Int) (dim permutation : List Int) (sizeofType : Nat)
      (stream : Int) : EngineCall
  | cuttPlanMeasure (rank : Int) (dim permutation : List Int) (sizeofType : Nat)
      (stream : Int) (idata odata : Int) (alpha beta : Option ℚ) : EngineCall
  | cuttExecute (plan : Option Nat) (idata odata : Int)
      (alpha beta : Option ℚ) : EngineCall
  | cuttDestroy (plan : Option Nat) : EngineCall
deriving DecidableEq

/-- What the engine would return: the `(handle, result)` written by `cuttPlan`
and `cuttPlanMeasure`, and the result of `cuttExecute`. -/
structure EngineBehavior where
  planRes : Nat × cuttResult
  planMeasureRes : Nat × cuttResult
  execRes : cuttResult
deriving DecidableEq

/-- The process-wide `std::once_flag cuttInitialized` (line 16). -/
structure ProcessState where
  cuttInitialized : Bool
deriving DecidableEq

def freshProcess : ProcessState := { cuttInitialized := false }

/-- `std::call_once(cuttInitialized, [](){ cuttInitialize(); })` as it appears
in both constructors (lines 60 and 90). -/
def callOnce (ps : ProcessState) : ProcessState × List EngineCall :=
  if ps.cuttInitialized then (ps, [])
  else ({ cuttInitialized := true }, [EngineCall.cuttInitialize])

/-- The fields of `class cuTT` (lines 41-50). `plan` and `initStatus` are
uninitialized in C++ until the binding assigns them; `none` models the
uninitialized state. -/
structure cuTT where
  plan : Option Nat
  initStatus : Option cuttResult
  planInitialized : Bool
  rank : Int
  dim : List Int
  permutation : List Int
  stream : Int
deriving DecidableEq

/-- The stream-argument validation shared by both constructors
(lines 67-80 and 111-124). -/
def streamCheck : PyStreamArg → Except String Int
  | .noneArg => .ok 0
  | .stream h => .ok h
  | .other s => .error ("Stream argument must be a pycuda.driver.stream, got: " ++ s)

/-- The deferred constructor (lines 54-81): runs the call-once gate, validates
only the stream argument, stores rank/dim/permutation, and defers cuttPlan to
the first use. Returns the updated process state, the engine calls made, and
either the constructed manager or the thrown `std::invalid_argument` text. -/
def cuTT.mkDeferred (ps : ProcessState) (rank : Int) (dim permutation : List Int)
    (streamArg : PyStreamArg) : ProcessState × List EngineCall × Except String cuTT :=
  let (ps1, calls) := callOnce ps
  match streamCheck streamArg with
  | .error e => (ps1, calls, .error e)
  | .ok s =>
      (ps1, calls, .ok { plan := none, initStatus := none, planInitialized := false,
                         rank := rank, dim := dim, permutation := permutation,
                         stream := s })

/-- The measured constructor (lines 83-139): call-once gate, gpuarray checks on
both sample buffers, stream check, dtype equality check, then
`initStatus = cuttPlanMeasure(...); planInitialized = true` — the planning
status is stored, not checked, so a planning failure is not thrown here. -/
def cuTT.mkMeasured (eng : EngineBehavior) (ps : ProcessState) (rank : Int)
    (dim permutation : List Int) (streamArg : PyStreamArg)
    (idata odata : PyBuffer) (alpha beta : Option ℚ) :
    ProcessState × List EngineCall × Except String cuTT :=
  let (ps1, calls) := callOnce ps
  if !idata.isGpuArray then
    (ps1, calls, .error ("Input array must be a pycuda.gpuarray, got: " ++ idata.str))
  else if !odata.isGpuArray then
    (ps1, calls, .error ("Output array must be a pycuda.gpuarray, got: " ++ odata.str))
  else
    match streamCheck streamArg with
    | .error e => (ps1, calls, .error e)
    | .ok s =>
        if idata.dtype ≠ odata.dtype then
          (ps1, calls, .error "Input and output array must have the same type")
        else
          let hs := eng.planMeasureRes
          (ps1,
           calls ++ [EngineCall.cuttPlanMeasure rank dim permutation idata.itemsize s
                       idata.ptr odata.ptr alpha beta],
           .ok { plan := some hs.1, initStatus := some hs.2, planInitialized := true,
                 rank := rank, dim := dim, permutation := permutation, stream := s })

/-- Outcome of `execute`: normal return, or the thrown exception's text. -/
inductive ExecOutcome where
  | ok : ExecOutcome
  | err (msg : String) : ExecOutcome
deriving DecidableEq

/-- `cuTT::execute` (lines 146-219): gpuarray checks, dtype equality check,
then lazy plan resolution guarded by `planInitialized`, the `initStatus`
check, and the `cuttExecute` call with α/β forwarded as NULL when the caller
passed None. Returns the updated manager, the engine calls made, and the
outcome. -/
def cuTT.execute (eng : EngineBehavior) (m : cuTT) (idata odata : PyBuffer)
    (pyalpha pybeta : Option ℚ) : cuTT × List EngineCall × ExecOutcome :=
  if !idata.isGpuArray then
    (m, [], .err ("Input array must be a pycuda.gpuarray, got: " ++ idata.str))
  else if !odata.isGpuArray then
    (m, [], .err ("Output array must be a pycuda.gpuarray, got: " ++ odata.str))
  else if idata.dtype ≠ odata.dtype then
    (m, [], .err ("Input and output array must have the same type, got: "
                    ++ idata.dtype ++ " and " ++ odata.dtype))
  else
    let igpuarray := idata.ptr
    let ogpuarray := odata.ptr
    let sizeofType := idata.itemsize
    let step :=
      if !m.planInitialized then
        let hs := eng.planRes
        ({ m with plan := some hs.1, initStatus := some hs.2, planInitialized := true },
         [EngineCall.cuttPlan m.rank m.dim m.permutation sizeofType m.stream])
      else (m, ([] : List EngineCall))
    let m1 := step.1
    let calls1 := step.2
    match m1.initStatus with
    | none =>
        -- C++ would read the uninitialized `initStatus` here; unreachable for
        -- any manager produced by a constructor of this binding.
        (m1, calls1, .err "uninitialized initStatus read")
    | some st =>
        if st ≠ CUTT_SUCCESS then
          (m1, calls1, .err ("cuTT error: " ++ cuttErrorString st))
        else
          let calls2 := calls1
            ++ [EngineCall.cuttExecute m1.plan igpuarray ogpuarray pyalpha pybeta]
          if eng.execRes ≠ CUTT_SUCCESS then
            (m1, calls2, .err ("cuTT error: " ++ cuttErrorString eng.execRes))
          else
            (m1, calls2, .ok)

/-- `cuTT::~cuTT` (lines 141-144): unconditionally `cuttDestroy(plan)`,
whether or not the plan was ever initialized. -/
def cuTT.dtor (m : cuTT) : List EngineCall := [EngineCall.cuttDestroy m.plan]

/-- Is this engine call the process initialization call? -/
def EngineCall.isInit : EngineCall → Bool
  | .cuttInitialize => true
  | _ => false

/-- Is this engine call the heuristic (direct) planning call? -/
def EngineCall.isPlan : EngineCall → Bool
  | .cuttPlan .. => true
  | _ => false

/-- Is this engine call a planning call of either strategy? -/
def EngineCall.isAnyPlan : EngineCall → Bool
  | .cuttPlan .. => true
  | .cuttPlanMeasure .. => true
  | _ => false

/-- Is this engine call the destroy call? -/
def EngineCall.isDestroy : EngineCall → Bool
  | .cuttDestroy .. => true
  | _ => false

def countInit (l : List EngineCall) : Nat := (l.filter EngineCall.isInit).length

def countPlan (l : List EngineCall) : Nat := (l.filter EngineCall.isPlan).length

def countAnyPlan (l : List EngineCall) : Nat := (l.filter EngineCall.isAnyPlan).length

def countDestroy (l : List EngineCall) : Nat := (l.filter EngineCall.isDestroy).length

/-- A stream argument the binding accepts: `None` or a real Stream object. -/
def PyStreamArg.isValid : PyStreamArg → Bool
  | .other _ => false
  | _ => true

/-- A construction request through either public entry point. -/
inductive CtorRequest where
  | deferred (rank : Int) (dim permutation : List Int)
      (streamArg : PyStreamArg) : CtorRequest
  | measured (eng : EngineBehavior) (rank : Int) (dim permutation : List Int)
      (streamArg : PyStreamArg) (idata odata : PyBuffer)
      (alpha beta : Option ℚ) : CtorRequest

/-- Run one construction request against the process state, keeping the
process state and the engine calls it made. -/
def runCtor (ps : ProcessState) : CtorRequest → ProcessState × List EngineCall
  | .deferred rank dim permutation s =>
      let r := cuTT.mkDeferred ps rank dim permutation s
      (r.1, r.2.1)
  | .measured eng rank dim permutation s idata odata alpha beta =>
      let r := cuTT.mkMeasured eng ps rank dim permutation s idata odata alpha beta
      (r.1, r.2.1)

/-- Run a sequence of construction requests, concatenating the engine calls. -/
def runCtors (ps : ProcessState) : List CtorRequest → ProcessState × List EngineCall
  | [] => (ps, [])
  | req :: rest =>
      let r := runCtor ps req
      let rs := runCtors r.1 rest
      (rs.1, r.2 ++ rs.2)

/-- The `stream` field value the constructors compute from a valid stream
argument (lines 67-80): 0 for `None`, `handle_int` for a Stream object. -/
def PyStreamArg.handleInt : PyStreamArg → Int
  | .stream h => h
  | _ => 0

/-! Concrete fixtures used by witnesses and counterexamples. -/

def bufF64A : PyBuffer :=
  { isGpuArray := true, dtype := "float64", ptr := 1024, itemsize := 8,
    str := "gpuarrayA" }

def bufF64B : PyBuffer :=
  { isGpuArray := true, dtype := "float64", ptr := 2048, itemsize := 8,
    str := "gpuarrayB" }

def bufF32C : PyBuffer :=
  { isGpuArray := true, dtype := "float32", ptr := 4096, itemsize := 4,
    str := "gpuarrayC" }

/-- An engine whose heuristic planning and execution succeed. -/
def engOk : EngineBehavior :=
  { planRes := (11, CUTT_SUCCESS), planMeasureRes := (12, CUTT_SUCCESS),
    execRes := CUTT_SUCCESS }

/-- C9: the Result Mapper is a total function: each of the six result codes
maps to its fixed human-readable text, and every value outside the closed set
maps to the fallback Unknown-error text. -/
theorem C9_resultMapper_total (r : cuttResult) :
    cuttErrorString CUTT_SUCCESS = "Success" ∧
    cuttErrorString CUTT_INVALID_PLAN = "Invalid plan handle" ∧
    cuttErrorString CUTT_INVALID_PARAMETER = "Invalid input parameter" ∧
    cuttErrorString CUTT_INVALID_DEVICE =
      "Execution tried on device different than where plan was created" ∧
    cuttErrorString CUTT_INTERNAL_ERROR = "Internal error" ∧
    cuttErrorString CUTT_UNDEFINED_ERROR = "Undefined error" ∧
    (r ∉ [CUTT_SUCCESS, CUTT_INVALID_PLAN, CUTT_INVALID_PARAMETER,
          CUTT_INVALID_DEVICE, CUTT_INTERNAL_ERROR, CUTT_UNDEFINED_ERROR] →
      cuttErrorString r = "Unknown error") := by
  refine ⟨rfl, rfl, rfl, rfl, rfl, rfl, ?_⟩
  intro hr
  simp only [List.mem_cons, List.not_mem_nil, or_false, not_or] at hr
  obtain ⟨h0, h1, h2, h3, h4, h5⟩ := hr
  simp [cuttErrorString, h0, h1, h2, h3, h4, h5]

theorem C9_resultMapper_total_witness :
    cuttErrorString 6 = "Unknown error" :=
  (C9_resultMapper_total 6).2.2.2.2.2.2 (by decide)

/-- C2 is wrong about the code: the destructor of a manager that is still
Unresolved (deferred constructor, never executed) is not a no-op — it makes
exactly one engine destroy call, passing the still-uninitialized handle. -/
theorem C2_dtor_unresolved_calls_destroy :
    cuTT.dtor { plan := none, initStatus := none, planInitialized := false,
                rank := 3, dim := [4, 6, 8], permutation := [2, 0, 1], stream := 0 }
      = [EngineCall.cuttDestroy none] ∧
    countDestroy
      (cuTT.dtor { plan := none, initStatus := none, planInitialized := false,
                   rank := 3, dim := [4, 6, 8], permutation := [2, 0, 1],
                   stream := 0 }) = 1 :=
  ⟨rfl, rfl⟩

/-- C1 fails on the code: `create` with rank 0 and empty dims/permutation
(an invalid spec: rank ≤ 0) succeeds and returns an Unresolved manager,
instead of failing with a parameter error. -/
theorem C1_create_rank0_succeeds :
    (cuTT.mkDeferred freshProcess 0 [] [] PyStreamArg.noneArg).2.2 =
      Except.ok { plan := none, initStatus := none, planInitialized := false,
                  rank := 0, dim := [], permutation := [], stream := 0 } := rfl

/-- C1 amended: `create` performs no validation of the spec invariants. For
every rank, dims and permutation — valid or not — and every valid stream
argument, `create` succeeds with the spec stored verbatim, makes no engine
planning call of either strategy, and the manager starts Unresolved. -/
theorem C1_create_no_validation (ps : ProcessState) (rank : Int)
    (dim permutation : List Int) (s : PyStreamArg) (hs : s.isValid = true) :
    (cuTT.mkDeferred ps rank dim permutation s).2.2 =
      Except.ok { plan := none, initStatus := none, planInitialized := false,
                  rank := rank, dim := dim, permutation := permutation,
                  stream := s.handleInt } ∧
    countAnyPlan (cuTT.mkDeferred ps rank dim permutation s).2.1 = 0 := by
  cases s with
  | noneArg =>
      cases hps : ps.cuttInitialized <;>
        simp [cuTT.mkDeferred, callOnce, streamCheck, PyStreamArg.handleInt,
              countAnyPlan, EngineCall.isAnyPlan, hps]
  | stream h =>
      cases hps : ps.cuttInitialized <;>
        simp [cuTT.mkDeferred, callOnce, streamCheck, PyStreamArg.handleInt,
              countAnyPlan, EngineCall.isAnyPlan, hps]
  | other str => exact absurd hs (by simp [PyStreamArg.isValid])

theorem C1_create_no_validation_witness :
    PyStreamArg.isValid PyStreamArg.noneArg = true ∧
    ((cuTT.mkDeferred freshProcess (-1) [4] [7, 7] PyStreamArg.noneArg).2.2 =
      Except.ok { plan := none, initStatus := none, planInitialized := false,
                  rank := -1, dim := [4], permutation := [7, 7],
                  stream := PyStreamArg.handleInt PyStreamArg.noneArg } ∧
     countAnyPlan (cuTT.mkDeferred freshProcess (-1) [4] [7, 7]
                     PyStreamArg.noneArg).2.1 = 0) :=
  ⟨rfl, C1_create_no_validation freshProcess (-1) [4] [7, 7] PyStreamArg.noneArg rfl⟩

/-- A manager that already resolved its plan successfully. -/
def mResolved : cuTT :=
  { plan := some 11, initStatus := some CUTT_SUCCESS, planInitialized := true,
    rank := 3, dim := [4, 6, 8], permutation := [2, 0, 1], stream := 0 }

/-- An engine whose execute reports `CUTT_INVALID_DEVICE`. -/
def engBadDevice : EngineBehavior :=
  { planRes := (11, CUTT_SUCCESS), planMeasureRes := (12, CUTT_SUCCESS),
    execRes := CUTT_INVALID_DEVICE }

/-- On a manager whose plan resolved successfully, `execute` with valid
buffers makes exactly the one engine execute call and leaves the manager
unchanged; the outcome depends only on the engine's execute result. -/
lemma execute_resolved_ok (eng : EngineBehavior) (m : cuTT)
    (idata odata : PyBuffer) (a b : Option ℚ)
    (hm : m.planInitialized = true) (hst : m.initStatus = some CUTT_SUCCESS)
    (hi : idata.isGpuArray = true) (ho : odata.isGpuArray = true)
    (hd : idata.dtype = odata.dtype) :
    cuTT.execute eng m idata odata a b =
      (m, [EngineCall.cuttExecute m.plan idata.ptr odata.ptr a b],
       if eng.execRes ≠ CUTT_SUCCESS then
         ExecOutcome.err ("cuTT error: " ++ cuttErrorString eng.execRes)
       else ExecOutcome.ok) := by
  unfold cuTT.execute
  by_cases h : eng.execRes = CUTT_SUCCESS <;> simp [hi, ho, hd, hm, hst, h]

/-- C5: on a Resolved manager, a non-Success engine execute result is raised
as an error whose text is the Result Mapper's text for that code, and the
manager is left unchanged (still Resolved, so a retry is possible); a Success
result returns normally. -/
theorem C5_engine_error_surfaced (eng : EngineBehavior) (m : cuTT)
    (idata odata : PyBuffer) (a b : Option ℚ)
    (hm : m.planInitialized = true) (hst : m.initStatus = some CUTT_SUCCESS)
    (hi : idata.isGpuArray = true) (ho : odata.isGpuArray = true)
    (hd : idata.dtype = odata.dtype) :
    (eng.execRes ≠ CUTT_SUCCESS →
      (cuTT.execute eng m idata odata a b).2.2 =
        ExecOutcome.err ("cuTT error: " ++ cuttErrorString eng.execRes)) ∧
    (eng.execRes = CUTT_SUCCESS →
      (cuTT.execute eng m idata odata a b).2.2 = ExecOutcome.ok) ∧
    (cuTT.execute eng m idata odata a b).1 = m ∧
    (cuTT.execute eng m idata odata a b).1.planInitialized = true := by
  rw [execute_resolved_ok eng m idata odata a b hm hst hi ho hd]
  refine ⟨fun h => by simp [h], fun h => by simp [h], rfl, hm⟩

theorem C5_engine_error_surfaced_witness :
    (cuTT.execute engBadDevice mResolved bufF64A bufF64B none none).2.2 =
      ExecOutcome.err ("cuTT error: "
        ++ "Execution tried on device different than where plan was created") ∧
    (cuTT.execute engBadDevice mResolved bufF64A bufF64B none none).1 =
      mResolved := by
  have h := C5_engine_error_surfaced engBadDevice mResolved bufF64A bufF64B
    none none rfl rfl rfl rfl rfl
  exact ⟨h.1 (by decide), h.2.2.1⟩

/-- C6: `execute` with buffers whose element type tags differ fails with the
parameter error before any engine call — the engine-call trace is empty (no
plan, no execute) and the manager is unchanged. -/
theorem C6_dtype_mismatch_no_engine_call (eng : EngineBehavior) (m : cuTT)
    (idata odata : PyBuffer) (a b : Option ℚ)
    (hi : idata.isGpuArray = true) (ho : odata.isGpuArray = true)
    (hd : idata.dtype ≠ odata.dtype) :
    cuTT.execute eng m idata odata a b =
      (m, [], ExecOutcome.err ("Input and output array must have the same type, got: "
                                ++ idata.dtype ++ " and " ++ odata.dtype)) := by
  unfold cuTT.execute
  simp [hi, ho, hd]

theorem C6_dtype_mismatch_no_engine_call_witness :
    cuTT.execute engOk
        { plan := none, initStatus := none, planInitialized := false,
          rank := 3, dim := [4, 6, 8], permutation := [2, 0, 1], stream := 0 }
        bufF64A bufF32C none none =
      ({ plan := none, initStatus := none, planInitialized := false,
         rank := 3, dim := [4, 6, 8], permutation := [2, 0, 1], stream := 0 },
       [], ExecOutcome.err ("Input and output array must have the same type, got: "
                              ++ "float64" ++ " and " ++ "float32")) :=
  C6_dtype_mismatch_no_engine_call engOk
    { plan := none, initStatus := none, planInitialized := false,
      rank := 3, dim := [4, 6, 8], permutation := [2, 0, 1], stream := 0 }
    bufF64A bufF32C none none rfl rfl (by decide)

/-- C8: the coefficients the engine's execute observes are exactly the
caller's: `none` (NULL) when omitted, and the exact supplied values
otherwise — the single engine execute call in the trace carries `(a, b)`
verbatim. -/
theorem C8_coefficients_forwarded (eng : EngineBehavior) (m : cuTT)
    (idata odata : PyBuffer) (a b : Option ℚ)
    (hm : m.planInitialized = true) (hst : m.initStatus = some CUTT_SUCCESS)
    (hi : idata.isGpuArray = true) (ho : odata.isGpuArray = true)
    (hd : idata.dtype = odata.dtype) :
    (cuTT.execute eng m idata odata a b).2.1 =
      [EngineCall.cuttExecute m.plan idata.ptr odata.ptr a b] := by
  rw [execute_resolved_ok eng m idata odata a b hm hst hi ho hd]

theorem C8_coefficients_forwarded_witness :
    (cuTT.execute engOk mResolved bufF64A bufF64B none none).2.1 =
      [EngineCall.cuttExecute (some 11) 1024 2048 none none] ∧
    (cuTT.execute engOk mResolved bufF64A bufF64B
        (some (2 : ℚ)) (some (1 / 2 : ℚ))).2.1 =
      [EngineCall.cuttExecute (some 11) 1024 2048
         (some (2 : ℚ)) (some (1 / 2 : ℚ))] :=
  ⟨C8_coefficients_forwarded engOk mResolved bufF64A bufF64B none none
     rfl rfl rfl rfl rfl,
   C8_coefficients_forwarded engOk mResolved bufF64A bufF64B
     (some (2 : ℚ)) (some (1 / 2 : ℚ)) rfl rfl rfl rfl rfl⟩

/-- On a manager whose plan is already resolved, `execute` never calls the
engine's heuristic plan again and never mutates the manager, whatever the
buffers and the engine behaviour. -/
lemma execute_resolved_no_plan (eng : EngineBehavior) (m : cuTT)
    (idata odata : PyBuffer) (a b : Option ℚ)
    (hm : m.planInitialized = true) :
    countPlan (cuTT.execute eng m idata odata a b).2.1 = 0 ∧
    (cuTT.execute eng m idata odata a b).1 = m := by
  unfold cuTT.execute
  cases hig : idata.isGpuArray with
  | false => simp [hig, countPlan]
  | true =>
    cases hog : odata.isGpuArray with
    | false => simp [hig, hog, countPlan]
    | true =>
      by_cases hd : idata.dtype = odata.dtype
      · cases hst : m.initStatus with
        | none => simp [hig, hog, hd, hm, hst, countPlan]
        | some st =>
            by_cases hs : st = CUTT_SUCCESS <;>
              by_cases he : eng.execRes = CUTT_SUCCESS <;>
                simp [hig, hog, hd, hm, hst, hs, he, countPlan, EngineCall.isPlan]
      · simp [hig, hog, hd, countPlan]

/-- `execute` on an Unresolved manager with valid buffers: one heuristic plan
call with the stored spec and the element width taken from the input buffer,
the statuses stored, and the engine execute call only when planning reported
Success. -/
lemma execute_unresolved (eng : EngineBehavior) (m : cuTT)
    (idata odata : PyBuffer) (a b : Option ℚ)
    (hm : m.planInitialized = false)
    (hi : idata.isGpuArray = true) (ho : odata.isGpuArray = true)
    (hd : idata.dtype = odata.dtype) :
    cuTT.execute eng m idata odata a b =
      (let m1 : cuTT :=
        { m with plan := some eng.planRes.1, initStatus := some eng.planRes.2,
                 planInitialized := true }
       let pc := EngineCall.cuttPlan m.rank m.dim m.permutation idata.itemsize m.stream
       if eng.planRes.2 ≠ CUTT_SUCCESS then
         (m1, [pc], ExecOutcome.err ("cuTT error: " ++ cuttErrorString eng.planRes.2))
       else if eng.execRes ≠ CUTT_SUCCESS then
         (m1, [pc, EngineCall.cuttExecute m1.plan idata.ptr odata.ptr a b],
          ExecOutcome.err ("cuTT error: " ++ cuttErrorString eng.execRes))
       else
         (m1, [pc, EngineCall.cuttExecute m1.plan idata.ptr odata.ptr a b],
          ExecOutcome.ok)) := by
  unfold cuTT.execute
  by_cases h1 : eng.planRes.2 = CUTT_SUCCESS <;>
    by_cases h2 : eng.execRes = CUTT_SUCCESS <;>
      simp [hi, ho, hd, hm, h1, h2]

/-- C4: the first `execute` on an Unresolved manager with a valid buffer pair
invokes the engine's plan exactly once and transitions the manager to
Resolved; any subsequent `execute` on the resulting manager — whatever its
buffers and engine behaviour — makes no plan call and leaves the manager
unchanged. -/
theorem C4_plan_invoked_once (eng eng2 : EngineBehavior) (m : cuTT)
    (idata odata idata2 odata2 : PyBuffer) (a b a2 b2 : Option ℚ)
    (hm : m.planInitialized = false)
    (hi : idata.isGpuArray = true) (ho : odata.isGpuArray = true)
    (hd : idata.dtype = odata.dtype) :
    countPlan (cuTT.execute eng m idata odata a b).2.1 = 1 ∧
    (cuTT.execute eng m idata odata a b).1.planInitialized = true ∧
    countPlan (cuTT.execute eng2 (cuTT.execute eng m idata odata a b).1
                 idata2 odata2 a2 b2).2.1 = 0 ∧
    (cuTT.execute eng2 (cuTT.execute eng m idata odata a b).1
       idata2 odata2 a2 b2).1 =
      (cuTT.execute eng m idata odata a b).1 := by
  have h1 : countPlan (cuTT.execute eng m idata odata a b).2.1 = 1 ∧
      (cuTT.execute eng m idata odata a b).1.planInitialized = true := by
    rw [execute_unresolved eng m idata odata a b hm hi ho hd]
    by_cases hp : eng.planRes.2 = CUTT_SUCCESS <;>
      by_cases he : eng.execRes = CUTT_SUCCESS <;>
        simp [hp, he, countPlan, EngineCall.isPlan]
  have h2 := execute_resolved_no_plan eng2
    (cuTT.execute eng m idata odata a b).1 idata2 odata2 a2 b2 h1.2
  exact ⟨h1.1, h1.2, h2.1, h2.2⟩

theorem C4_plan_invoked_once_witness :
    countPlan (cuTT.execute engOk
        { plan := none, initStatus := none, planInitialized := false,
          rank := 3, dim := [4, 6, 8], permutation := [2, 0, 1], stream := 0 }
        bufF64A bufF64B none none).2.1 = 1 ∧
    (cuTT.execute engOk
        { plan := none, initStatus := none, planInitialized := false,
          rank := 3, dim := [4, 6, 8], permutation := [2, 0, 1], stream := 0 }
        bufF64A bufF64B none none).1.planInitialized = true ∧
    countPlan (cuTT.execute engOk
        (cuTT.execute engOk
          { plan := none, initStatus := none, planInitialized := false,
            rank := 3, dim := [4, 6, 8], permutation := [2, 0, 1], stream := 0 }
          bufF64A bufF64B none none).1
        bufF32C bufF32C none none).2.1 = 0 ∧
    (cuTT.execute engOk
        (cuTT.execute engOk
          { plan := none, initStatus := none, planInitialized := false,
            rank := 3, dim := [4, 6, 8], permutation := [2, 0, 1], stream := 0 }
          bufF64A bufF64B none none).1
        bufF32C bufF32C none none).1 =
      (cuTT.execute engOk
        { plan := none, initStatus := none, planInitialized := false,
          rank := 3, dim := [4, 6, 8], permutation := [2, 0, 1], stream := 0 }
        bufF64A bufF64B none none).1 :=
  C4_plan_invoked_once engOk engOk
    { plan := none, initStatus := none, planInitialized := false,
      rank := 3, dim := [4, 6, 8], permutation := [2, 0, 1], stream := 0 }
    bufF64A bufF64B bufF32C bufF32C none none none none rfl rfl rfl rfl

/-- On a manager whose stored planning status is a failure, `execute` with
valid buffers reports the stored status and makes no engine call at all. -/
lemma execute_resolved_failed (eng : EngineBehavior) (m : cuTT)
    (idata odata : PyBuffer) (a b : Option ℚ) (st : cuttResult)
    (hm : m.planInitialized = true) (hst : m.initStatus = some st)
    (hs : st ≠ CUTT_SUCCESS)
    (hi : idata.isGpuArray = true) (ho : odata.isGpuArray = true)
    (hd : idata.dtype = odata.dtype) :
    cuTT.execute eng m idata odata a b =
      (m, [], ExecOutcome.err ("cuTT error: " ++ cuttErrorString st)) := by
  unfold cuTT.execute
  simp [hi, ho, hd, hm, hst, hs]

/-- C10: when the deferred plan resolution attempted on the first `execute`
fails, the manager still transitions permanently to Resolved with the failed
status stored: the first call makes exactly the one plan call (and no engine
execute call) and reports the mapped error; every later `execute` with valid
buffers makes no engine call at all, reports the same stored error, and
leaves the manager unchanged — a failed resolution is never retried. -/
theorem C10_failed_resolution_permanent (eng eng2 : EngineBehavior) (m : cuTT)
    (idata odata idata2 odata2 : PyBuffer) (a b a2 b2 : Option ℚ)
    (hm : m.planInitialized = false)
    (hp : eng.planRes.2 ≠ CUTT_SUCCESS)
    (hi : idata.isGpuArray = true) (ho : odata.isGpuArray = true)
    (hd : idata.dtype = odata.dtype)
    (hi2 : idata2.isGpuArray = true) (ho2 : odata2.isGpuArray = true)
    (hd2 : idata2.dtype = odata2.dtype) :
    (cuTT.execute eng m idata odata a b).2.1 =
      [EngineCall.cuttPlan m.rank m.dim m.permutation idata.itemsize m.stream] ∧
    (cuTT.execute eng m idata odata a b).1.planInitialized = true ∧
    (cuTT.execute eng m idata odata a b).1.initStatus = some eng.planRes.2 ∧
    (cuTT.execute eng m idata odata a b).2.2 =
      ExecOutcome.err ("cuTT error: " ++ cuttErrorString eng.planRes.2) ∧
    (cuTT.execute eng2 (cuTT.execute eng m idata odata a b).1
       idata2 odata2 a2 b2).2.1 = [] ∧
    (cuTT.execute eng2 (cuTT.execute eng m idata odata a b).1
       idata2 odata2 a2 b2).2.2 =
      ExecOutcome.err ("cuTT error: " ++ cuttErrorString eng.planRes.2) ∧
    (cuTT.execute eng2 (cuTT.execute eng m idata odata a b).1
       idata2 odata2 a2 b2).1 =
      (cuTT.execute eng m idata odata a b).1 := by
  have hr1 : cuTT.execute eng m idata odata a b =
      ({ m with plan := some eng.planRes.1, initStatus := some eng.planRes.2,
                planInitialized := true },
       [EngineCall.cuttPlan m.rank m.dim m.permutation idata.itemsize m.stream],
       ExecOutcome.err ("cuTT error: " ++ cuttErrorString eng.planRes.2)) := by
    rw [execute_unresolved eng m idata odata a b hm hi ho hd]
    simp [hp]
  have h2 := execute_resolved_failed eng2 (cuTT.execute eng m idata odata a b).1
    idata2 odata2 a2 b2 eng.planRes.2 (by rw [hr1]) (by rw [hr1]) hp hi2 ho2 hd2
  exact ⟨by rw [hr1], by rw [hr1], by rw [hr1], by rw [hr1],
         by rw [h2], by rw [h2], by rw [h2]⟩

/-- An engine whose heuristic planning fails with an internal error. -/
def engPlanFail : EngineBehavior :=
  { planRes := (0, CUTT_INTERNAL_ERROR), planMeasureRes := (12, CUTT_SUCCESS),
    execRes := CUTT_SUCCESS }

theorem C10_failed_resolution_permanent_witness :
    (cuTT.execute engPlanFail
        { plan := none, initStatus := none, planInitialized := false,
          rank := 3, dim := [4, 6, 8], permutation := [2, 0, 1], stream := 0 }
        bufF64A bufF64B none none).2.2 =
      ExecOutcome.err ("cuTT error: " ++ cuttErrorString CUTT_INTERNAL_ERROR) ∧
    (cuTT.execute engPlanFail
        (cuTT.execute engPlanFail
          { plan := none, initStatus := none, planInitialized := false,
            rank := 3, dim := [4, 6, 8], permutation := [2, 0, 1], stream := 0 }
          bufF64A bufF64B none none).1
        bufF64A bufF64B none none).2.1 = [] ∧
    (cuTT.execute engPlanFail
        (cuTT.execute engPlanFail
          { plan := none, initStatus := none, planInitialized := false,
            rank := 3, dim := [4, 6, 8], permutation := [2, 0, 1], stream := 0 }
          bufF64A bufF64B none none).1
        bufF64A bufF64B none none).2.2 =
      ExecOutcome.err ("cuTT error: " ++ cuttErrorString CUTT_INTERNAL_ERROR) := by
  have h := C10_failed_resolution_permanent engPlanFail engPlanFail
    { plan := none, initStatus := none, planInitialized := false,
      rank := 3, dim := [4, 6, 8], permutation := [2, 0, 1], stream := 0 }
    bufF64A bufF64B bufF64A bufF64B none none none none
    rfl (by decide) rfl rfl rfl rfl rfl rfl
  exact ⟨h.2.2.2.1, h.2.2.2.2.1, h.2.2.2.2.2.1⟩

/-- An engine whose measured planning fails with an internal error. -/
def engMeasureFail : EngineBehavior :=
  { planRes := (0, CUTT_SUCCESS), planMeasureRes := (7, CUTT_INTERNAL_ERROR),
    execRes := CUTT_SUCCESS }

/-- C3 fails on the code: a measured construction whose engine planning call
reports `CUTT_INTERNAL_ERROR` still returns the manager normally — the
failure is not reported at the construction call. -/
theorem C3_measured_failure_not_reported :
    (cuTT.mkMeasured engMeasureFail freshProcess 3 [4, 6, 8] [2, 0, 1]
        PyStreamArg.noneArg bufF64A bufF64B none none).2.2 =
      Except.ok { plan := some 7, initStatus := some CUTT_INTERNAL_ERROR,
                  planInitialized := true, rank := 3, dim := [4, 6, 8],
                  permutation := [2, 0, 1], stream := 0 } := by
  rfl

/-- C3 amended: a failure of the measured planning call is not reported at
the construction call; the construction succeeds with the failed status
stored (state Resolved), and the failure surfaces as the mapped error at the
first `execute` call, which makes no engine call at all. -/
theorem C3_measured_failure_deferred (eng eng2 : EngineBehavior)
    (ps : ProcessState) (rank : Int) (dim permutation : List Int)
    (s : PyStreamArg) (idata odata idata2 odata2 : PyBuffer)
    (a b a2 b2 : Option ℚ)
    (hs : s.isValid = true)
    (hi : idata.isGpuArray = true) (ho : odata.isGpuArray = true)
    (hd : idata.dtype = odata.dtype)
    (hi2 : idata2.isGpuArray = true) (ho2 : odata2.isGpuArray = true)
    (hd2 : idata2.dtype = odata2.dtype)
    (hp : eng.planMeasureRes.2 ≠ CUTT_SUCCESS) :
    (cuTT.mkMeasured eng ps rank dim permutation s idata odata a b).2.2 =
      Except.ok { plan := some eng.planMeasureRes.1,
                  initStatus := some eng.planMeasureRes.2,
                  planInitialized := true, rank := rank, dim := dim,
                  permutation := permutation, stream := s.handleInt } ∧
    cuTT.execute eng2
        { plan := some eng.planMeasureRes.1,
          initStatus := some eng.planMeasureRes.2,
          planInitialized := true, rank := rank, dim := dim,
          permutation := permutation, stream := s.handleInt }
        idata2 odata2 a2 b2 =
      ({ plan := some eng.planMeasureRes.1,
         initStatus := some eng.planMeasureRes.2,
         planInitialized := true, rank := rank, dim := dim,
         permutation := permutation, stream := s.handleInt },
       [], ExecOutcome.err ("cuTT error: " ++ cuttErrorString eng.planMeasureRes.2)) := by
  constructor
  · cases s with
    | noneArg =>
        cases hps : ps.cuttInitialized <;>
          simp [cuTT.mkMeasured, callOnce, streamCheck, PyStreamArg.handleInt,
                hps, hi, ho, hd]
    | stream h =>
        cases hps : ps.cuttInitialized <;>
          simp [cuTT.mkMeasured, callOnce, streamCheck, PyStreamArg.handleInt,
                hps, hi, ho, hd]
    | other str => exact absurd hs (by simp [PyStreamArg.isValid])
  · exact execute_resolved_failed eng2 _ idata2 odata2 a2 b2
      eng.planMeasureRes.2 rfl rfl hp hi2 ho2 hd2

theorem C3_measured_failure_deferred_witness :
    (cuTT.mkMeasured engMeasureFail freshProcess 3 [4, 6, 8] [2, 0, 1]
        PyStreamArg.noneArg bufF64A bufF64B none none).2.2 =
      Except.ok { plan := some 7, initStatus := some CUTT_INTERNAL_ERROR,
                  planInitialized := true, rank := 3, dim := [4, 6, 8],
                  permutation := [2, 0, 1],
                  stream := PyStreamArg.handleInt PyStreamArg.noneArg } ∧
    cuTT.execute engMeasureFail
        { plan := some 7, initStatus := some CUTT_INTERNAL_ERROR,
          planInitialized := true, rank := 3, dim := [4, 6, 8],
          permutation := [2, 0, 1],
          stream := PyStreamArg.handleInt PyStreamArg.noneArg }
        bufF64A bufF64B none none =
      ({ plan := some 7, initStatus := some CUTT_INTERNAL_ERROR,
         planInitialized := true, rank := 3, dim := [4, 6, 8],
         permutation := [2, 0, 1],
         stream := PyStreamArg.handleInt PyStreamArg.noneArg },
       [], ExecOutcome.err ("cuTT error: " ++ cuttErrorString CUTT_INTERNAL_ERROR)) :=
  C3_measured_failure_deferred engMeasureFail engMeasureFail freshProcess
    3 [4, 6, 8] [2, 0, 1] PyStreamArg.noneArg bufF64A bufF64B bufF64A bufF64B
    none none none none rfl rfl rfl rfl rfl rfl rfl (by decide)

lemma countInit_append (l1 l2 : List EngineCall) :
    countInit (l1 ++ l2) = countInit l1 + countInit l2 := by
  simp [countInit, List.filter_append]

/-- After any construction request the once-flag is set. -/
lemma runCtor_cuttInitialized (ps : ProcessState) (req : CtorRequest) :
    (runCtor ps req).1.cuttInitialized = true := by
  cases req with
  | deferred r d p s =>
      cases hps : ps.cuttInitialized <;> cases s <;>
        simp [runCtor, cuTT.mkDeferred, callOnce, streamCheck, hps]
  | measured e r d p s i o a b =>
      cases hps : ps.cuttInitialized <;>
        cases hig : i.isGpuArray <;> cases hog : o.isGpuArray <;> cases s <;>
          by_cases hd : i.dtype = o.dtype <;>
            simp [runCtor, cuTT.mkMeasured, callOnce, streamCheck, hps, hig, hog, hd]

/-- A construction request on a process whose once-flag is already set makes
no engine initialization call. -/
lemma runCtor_no_init_of_done (ps : ProcessState)
    (hps : ps.cuttInitialized = true) (req : CtorRequest) :
    countInit (runCtor ps req).2 = 0 := by
  cases req with
  | deferred r d p s =>
      cases s <;>
        simp [runCtor, cuTT.mkDeferred, callOnce, streamCheck, hps, countInit]
  | measured e r d p s i o a b =>
      cases hig : i.isGpuArray <;> cases hog : o.isGpuArray <;> cases s <;>
        by_cases hd : i.dtype = o.dtype <;>
          simp [runCtor, cuTT.mkMeasured, callOnce, streamCheck, hps, hig, hog,
                hd, countInit, EngineCall.isInit]

lemma runCtors_no_init_of_done (ps : ProcessState)
    (hps : ps.cuttInitialized = true) (reqs : List CtorRequest) :
    countInit (runCtors ps reqs).2 = 0 := by
  induction reqs generalizing ps with
  | nil => simp [runCtors, countInit]
  | cons req rest ih =>
      have h1 := runCtor_no_init_of_done ps hps req
      have h2 := ih (runCtor ps req).1 (runCtor_cuttInitialized ps req)
      simp only [runCtors, countInit_append, h1, h2]

/-- The first construction request on a fresh process puts the engine
initialization call at the head of its trace, and makes no other one. -/
lemma runCtor_fresh_head (req : CtorRequest) :
    (runCtor freshProcess req).2.head? = some EngineCall.cuttInitialize ∧
    countInit (runCtor freshProcess req).2 = 1 := by
  cases req with
  | deferred r d p s =>
      cases s <;>
        simp [runCtor, cuTT.mkDeferred, callOnce, freshProcess, streamCheck,
              countInit, EngineCall.isInit]
  | measured e r d p s i o a b =>
      cases hig : i.isGpuArray <;> cases hog : o.isGpuArray <;> cases s <;>
        by_cases hd : i.dtype = o.dtype <;>
          simp [runCtor, cuTT.mkMeasured, callOnce, freshProcess, streamCheck,
                hig, hog, hd, countInit, EngineCall.isInit]

/-- C7: across any nonempty sequence of construction requests through either
entry point, the engine's process-wide initialization is invoked exactly
once, it stands at the head of the whole engine-call trace, and every
planning call (of either strategy) comes strictly after it. -/
theorem C7_initialization_exactly_once (reqs : List CtorRequest)
    (h : reqs ≠ []) :
    countInit (runCtors freshProcess reqs).2 = 1 ∧
    (runCtors freshProcess reqs).2.head? = some EngineCall.cuttInitialize ∧
    (∀ i : Nat, ((runCtors freshProcess reqs).2.get? i).any
        EngineCall.isAnyPlan = true → 0 < i) := by
  obtain ⟨req, rest, rfl⟩ := List.exists_cons_of_ne_nil h
  have h1 := runCtor_fresh_head req
  have h2 := runCtors_no_init_of_done (runCtor freshProcess req).1
    (runCtor_cuttInitialized freshProcess req) rest
  have htr : (runCtors freshProcess (req :: rest)).2 =
      (runCtor freshProcess req).2 ++
        (runCtors (runCtor freshProcess req).1 rest).2 := rfl
  obtain ⟨x, xs, hx⟩ : ∃ x xs, (runCtor freshProcess req).2 = x :: xs := by
    cases hc : (runCtor freshProcess req).2 with
    | nil => rw [hc] at h1; simp at h1
    | cons x xs => exact ⟨x, xs, rfl⟩
  have hxinit : x = EngineCall.cuttInitialize := by
    have := h1.1
    rw [hx] at this
    simpa using this
  subst hxinit
  refine ⟨by rw [htr, countInit_append, h1.2, h2], ?_, ?_⟩
  · rw [htr, hx]
    rfl
  · intro i hi
    cases i with
    | zero =>
        rw [htr, hx] at hi
        simp [EngineCall.isAnyPlan] at hi
    | succ n => exact Nat.succ_pos n

theorem C7_initialization_exactly_once_witness :
    countInit (runCtors freshProcess
        [CtorRequest.deferred 3 [4, 6, 8] [2, 0, 1] PyStreamArg.noneArg,
         CtorRequest.measured engOk 2 [5, 5] [1, 0] PyStreamArg.noneArg
           bufF64A bufF64B none none]).2 = 1 ∧
    (runCtors freshProcess
        [CtorRequest.deferred 3 [4, 6, 8] [2, 0, 1] PyStreamArg.noneArg,
         CtorRequest.measured engOk 2 [5, 5] [1, 0] PyStreamArg.noneArg
           bufF64A bufF64B none none]).2.head? =
      some EngineCall.cuttInitialize ∧
    (∀ i : Nat, ((runCtors freshProcess
        [CtorRequest.deferred 3 [4, 6, 8] [2, 0, 1] PyStreamArg.noneArg,
         CtorRequest.measured engOk 2 [5, 5] [1, 0] PyStreamArg.noneArg
           bufF64A bufF64B none none]).2.get? i).any
        EngineCall.isAnyPlan = true → 0 < i) :=
  C7_initialization_exactly_once
    [CtorRequest.deferred 3 [4, 6, 8] [2, 0, 1] PyStreamArg.noneArg,
     CtorRequest.measured engOk 2 [5, 5] [1, 0] PyStreamArg.noneArg
       bufF64A bufF64B none none]
    (List.cons_ne_nil _ _)

end CuttModel
